import Mathlib

/-!
Verification development for the activity-sync repository
(Strava-to-Nextcloud synchronization service).

This file contains a shallow embedding of the sync orchestration core
(`activity_sync/syncer.py`, `StravaNextcloudSync.sync_activities`), the
configuration check (`activity_sync/config.py`, `SyncConfig.strava_ready`),
the Nextcloud state/upload client behaviour
(`activity_sync/nextcloud_client.py`), and the GPX encoder
(`activity_sync/strava2gpx/client.py`, `strava2gpx.write_to_gpx`),
together with theorems that settle the specification claims.

Modelling conventions:
- Python machine integers and ints are modelled as `Int`/`Nat` (no overflow
  occurs in the source).
- IEEE doubles (stream samples) are modelled as exact rationals `Rat`;
  `f"\x7bx:.7f\x7d"`-style fixed formatting is modelled by decimal
  round-half-even formatting of the rational, which agrees with CPython on
  all decimally-exact inputs used in the theorems below.
- UTC timestamps are modelled as epoch counts in whole seconds
  (microseconds are ignored; the source only compares and subtracts them).
- Effectful collaborator calls (Strava HTTP, Nextcloud WebDAV, the file
  system) are modelled by an explicit environment that predetermines each
  call outcome; the orchestrator run is a pure function of that environment
  producing a trace of events and a final state.
-/

set_option maxRecDepth 100000

/-! ## String helpers (Python `in`, `str.replace`, slicing) -/

/-- Python list/char-list equality of a leading segment:
`startsWithChars p l` is true when `p` is an initial segment of `l`. -/
def startsWithChars : List Char → List Char → Bool
  | [], _ => true
  | _ :: _, [] => false
  | a :: as, b :: bs => a == b && startsWithChars as bs

/-- Python `needle in haystack` on strings (substring containment). -/
def hasSubstrChars (needle : List Char) : List Char → Bool
  | [] => startsWithChars needle []
  | c :: cs => startsWithChars needle (c :: cs) || hasSubstrChars needle cs

/-- Python `needle in haystack` on strings. -/
def hasSubstr (haystack needle : String) : Bool :=
  hasSubstrChars needle.toList haystack.toList

/-- Number of positions of `haystack` at which `needle` occurs
(overlapping occurrences counted separately; used only for analysis of
the produced GPX text, not a source translation). -/
def countSubstrChars (needle : List Char) : List Char → Nat
  | [] => if startsWithChars needle [] then 1 else 0
  | c :: cs =>
      (if startsWithChars needle (c :: cs) then 1 else 0) + countSubstrChars needle cs

/-- Number of occurrence positions of `needle` in `haystack`. -/
def countSubstr (haystack needle : String) : Nat :=
  countSubstrChars needle.toList haystack.toList

/-- Index of the first occurrence of `needle` in `haystack`
(length of `haystack` when absent). -/
def firstSubstrPosChars (needle : List Char) : List Char → Nat
  | [] => 0
  | c :: cs =>
      if startsWithChars needle (c :: cs) then 0 else firstSubstrPosChars needle cs + 1

/-- Index of the first occurrence of `needle` in `haystack`. -/
def firstSubstrPos (haystack needle : String) : Nat :=
  firstSubstrPosChars needle.toList haystack.toList

/-! ## Configuration (`activity_sync/config.py`) -/

/-- Python truthiness of an optional string environment variable:
`os.getenv` returns `None` when unset; an empty string is falsy. -/
def pyTruthy : Option String → Bool
  | none => false
  | some s => s ≠ ""

/-- `SyncConfig`: configuration values loaded from environment variables.
Only the Strava fields participate in the claims; the Nextcloud fields are
opaque strings handed to the collaborator clients. -/
structure SyncConfig where
  strava_client_id : Option String
  strava_refresh_token : Option String
  strava_client_secret : Option String
  deriving Repr, DecidableEq

/-- `SyncConfig.strava_ready`:
`all([self.strava_client_id, self.strava_refresh_token,
self.strava_client_secret])`. -/
def SyncConfig.strava_ready (c : SyncConfig) : Bool :=
  pyTruthy c.strava_client_id && pyTruthy c.strava_refresh_token &&
    pyTruthy c.strava_client_secret

/-! ## Activity summaries and the delta (`syncer.py` line 64) -/

/-- One entry `[name, id, start_date, type]` of the master list produced by
`strava2gpx.get_activities_list`. `start_date` is kept as the raw ISO8601
string exactly as the source does (the syncer only slices it). -/
structure ActivitySummary where
  name : String
  id : Int
  start_date : String
  type : String
  deriving Repr, DecidableEq

/-- The in-memory synced-id set.  Python uses `set[str]`; the model keeps a
duplicate-free list.  `insertId` is `set.add`. -/
def insertId (s : List String) (x : String) : List String :=
  if x ∈ s then s else s ++ [x]

/-- `new_activities = [a for a in activities_list if str(a[1]) not in
self.synced_ids]` (`syncer.py` line 64). -/
def new_activities (acts : List ActivitySummary) (synced : List String) :
    List ActivitySummary :=
  acts.filter (fun a => !(synced.contains (toString a.id)))

/-! ## UTC timestamps (`datetime` as used by the source)

The source carries timestamps either as ISO8601 strings (activity
`start_date`) or as timezone-aware `datetime` values (backoff handling).
They are modelled structurally: a civil date-time plus an `aware` flag
(whether the original string carried the `Z`/`+00:00` UTC designator).
Epoch arithmetic uses the standard proleptic-Gregorian civil-from-days
conversion, the same function family `datetime` implements. -/

/-- Days from civil date (proleptic Gregorian), days since 1970-01-01. -/
def daysFromCivil (y : Int) (m d : Nat) : Int :=
  let y2 : Int := if m ≤ 2 then y - 1 else y
  let era : Int := (if 0 ≤ y2 then y2 else y2 - 399).ediv 400
  let yoe : Nat := (y2 - era * 400).toNat
  let mp : Nat := (m + 9) % 12
  let doy : Nat := (153 * mp + 2) / 5 + d - 1
  let doe : Nat := yoe * 365 + yoe / 4 - yoe / 100 + doy
  era * 146097 + (doe : Int) - 719468

/-- Civil date (year, month, day) from days since 1970-01-01. -/
def civilFromDays (z : Int) : Int × Nat × Nat :=
  let z2 := z + 719468
  let era : Int := (if 0 ≤ z2 then z2 else z2 - 146096).ediv 146097
  let doe : Nat := (z2 - era * 146097).toNat
  let yoe : Nat := (doe - doe / 1460 + doe / 36524 - doe / 146096) / 365
  let y : Int := (yoe : Int) + era * 400
  let doy : Nat := doe - (365 * yoe + yoe / 4 - yoe / 100)
  let mp : Nat := (5 * doy + 2) / 153
  let d : Nat := doy - (153 * mp + 2) / 5 + 1
  let m : Nat := if mp < 10 then mp + 3 else mp - 9
  (if m ≤ 2 then y + 1 else y, m, d)

/-- A `datetime` value: civil components plus whether it is timezone-aware
(UTC). Microseconds are not modelled (the source only ever produces whole
seconds in the fields the claims mention). -/
structure DateTime where
  year : Int
  month : Nat
  day : Nat
  hour : Nat
  minute : Nat
  second : Nat
  aware : Bool
  deriving Repr, DecidableEq

/-- Seconds since the epoch of a `DateTime` (naive values are treated as
UTC, matching the arithmetic the source performs on them). -/
def DateTime.toEpoch (dt : DateTime) : Int :=
  daysFromCivil dt.year dt.month dt.day * 86400 +
    (dt.hour * 3600 + dt.minute * 60 + dt.second : Nat)

/-- `DateTime` from seconds since the epoch. -/
def DateTime.fromEpoch (t : Int) (aware : Bool) : DateTime :=
  let days := t.ediv 86400
  let sod := (t.emod 86400).toNat
  let c := civilFromDays days
  { year := c.1, month := c.2.1, day := c.2.2,
    hour := sod / 3600, minute := sod % 3600 / 60, second := sod % 60,
    aware := aware }

/-- Left-pad a decimal rendering with zeros. -/
def padLeftZeros (s : String) (k : Nat) : String :=
  String.mk (List.replicate (k - s.length) '0') ++ s

/-- Two-digit zero-padded field, as `datetime.isoformat` prints it. -/
def pad2 (n : Nat) : String := padLeftZeros (toString n) 2

/-- `datetime.isoformat()` without any timezone suffix:
`YYYY-MM-DDTHH:MM:SS`. -/
def DateTime.isoBase (dt : DateTime) : String :=
  padLeftZeros (toString dt.year) 4 ++ "-" ++ pad2 dt.month ++ "-" ++ pad2 dt.day ++
    "T" ++ pad2 dt.hour ++ ":" ++ pad2 dt.minute ++ ":" ++ pad2 dt.second

/-- The raw ISO8601 string of a timestamp as the Strava API serves it
(UTC values carry a literal `Z`). The source passes these strings around
verbatim; the model renders them from the structured value. -/
def DateTime.isoRaw (dt : DateTime) : String :=
  dt.isoBase ++ (if dt.aware then "Z" else "")

/-- `strava2gpx.add_seconds_to_timestamp`: parse the start timestamp, add
`seconds`, and return `(new_time.isoformat() + "Z").replace("+00:00", "")`.
For both aware (`...+00:00Z` with the offset removed) and naive values the
result is the base rendering with a literal `Z` appended. -/
def add_seconds_to_timestamp (start : DateTime) (seconds : Int) : String :=
  (DateTime.fromEpoch (start.toEpoch + seconds) start.aware).isoBase ++ "Z"

/-! ## Fixed-point float formatting (Python `f"..."` with `:.7f` / `:.1f`)

Stream samples are IEEE doubles in the source; they are modelled as exact
rationals, and the fixed formatting as decimal round-half-even, which
coincides with CPython on decimally-exact values. -/

/-- Round-half-even of the fraction `num / den` (`den > 0`), the rounding
`str.format` applies, phrased on integers so that the kernel can evaluate
it. -/
def roundHalfEvenFrac (num den : Int) : Int :=
  let q := num.ediv den
  let r := num.emod den
  if 2 * r < den then q
  else if den < 2 * r then q + 1
  else if q % 2 = 0 then q else q + 1

/-- Python `f"{x:.<prec>f}"` on the rational model of `x`: decimal
round-half-even of `x * 10 ^ prec`, computed on the reduced numerator and
denominator. -/
def fmtFixed (q : ℚ) (prec : Nat) : String :=
  let n := roundHalfEvenFrac (q.num * ((10 : Nat) ^ prec : Nat)) (q.den : Int)
  let sign := if n < 0 ∨ (n = 0 ∧ q.num < 0) then "-" else ""
  let m := n.natAbs
  sign ++ toString (m / 10 ^ prec) ++ "." ++
    padLeftZeros (toString (m % 10 ^ prec)) prec

/-! ## GPX encoder (`activity_sync/strava2gpx/client.py`) -/

/-- The detailed activity returned by `get_strava_activity`, restricted to
the fields `write_to_gpx` and `detect_activity_streams` read.  The three
`has_*` booleans model field presence/shape in the JSON object:
`device_watts` is `activity.get("device_watts", False)`, `has_heartrate`
the field of the same name, `has_average_cadence` / `has_average_temp`
whether the keys `"average_cadence"` / `"average_temp"` are present. -/
structure ActivityDetail where
  name : String
  id : Int
  start_date : DateTime
  type : String
  sport_type : String
  device_watts : Bool
  has_heartrate : Bool
  has_average_cadence : Bool
  has_average_temp : Bool
  deriving Repr, DecidableEq

/-- The stream flags `strava2gpx.streams` after `detect_activity_streams`
ran for an activity (`latlng` and `altitude` stay 1 and are left
implicit). -/
structure StreamFlags where
  watts : Bool
  heartrate : Bool
  cadence : Bool
  temp : Bool
  deriving Repr, DecidableEq

/-- `strava2gpx.detect_activity_streams`. -/
def detect_activity_streams (a : ActivityDetail) : StreamFlags :=
  { watts := a.device_watts
    heartrate := a.has_heartrate
    cadence := a.has_average_cadence
    temp := a.has_average_temp }

/-- One stream of the `get_data_stream` response:
`{"original_size": ..., "data": [...]}`. -/
structure StreamData (α : Type) where
  original_size : Nat
  data : List α
  deriving Repr, DecidableEq

/-- The `get_data_stream` response, keyed by stream type.  A `none` field
models a key missing from the JSON response (reading it raises `KeyError`,
which `write_to_gpx` catches). `latlng` samples are pairs, `altitude`
samples doubles, the remaining streams integer-valued. -/
structure StreamsResp where
  time : Option (StreamData Int)
  latlng : Option (StreamData (ℚ × ℚ))
  altitude : Option (StreamData ℚ)
  heartrate : Option (StreamData Int)
  cadence : Option (StreamData Int)
  watts : Option (StreamData Int)
  temp : Option (StreamData Int)
  deriving Repr, DecidableEq

/-- The `schema_location` string of `write_to_gpx`. -/
def schema_location : String :=
  String.intercalate " "
    ["http://www.topografix.com/GPX/1.1",
     "http://www.topografix.com/GPX/1.1/gpx.xsd",
     "http://www.garmin.com/xmlschemas/GpxExtensions/v3",
     "http://www.garmin.com/xmlschemas/GpxExtensionsv3.xsd",
     "http://www.garmin.com/xmlschemas/TrackPointExtension/v1",
     "http://www.garmin.com/xmlschemas/TrackPointExtensionv1.xsd"]

/-- The `gpx_header` string of `write_to_gpx` (the f-string expanded). -/
def gpx_header (a : ActivityDetail) : String :=
  "<?xml version=\"1.0\" encoding=\"UTF-8\"?>\n" ++
  "<gpx " ++
  "xmlns:xsi=\"http://www.w3.org/2001/XMLSchema-instance\" " ++
  "xsi:schemaLocation=\"" ++ schema_location ++ "\" " ++
  "creator=\"StravaGPX\" version=\"1.1\" " ++
  "xmlns=\"http://www.topografix.com/GPX/1.1\" " ++
  "xmlns:gpxtpx=\"http://www.garmin.com/xmlschemas/TrackPointExtension/v1\" " ++
  "xmlns:gpxx=\"http://www.garmin.com/xmlschemas/GpxExtensions/v3\">\n" ++
  "  <metadata>\n" ++
  "    <time>" ++ a.start_date.isoRaw ++ "</time>\n" ++
  "  </metadata>\n" ++
  "  <trk>\n" ++
  "    <name>" ++ a.name ++ "</name>\n" ++
  "    <type>" ++ a.type ++ "</type>\n" ++
  "    <desc>" ++ a.sport_type ++ "</desc>\n" ++
  "    <link>https://www.strava.com/activities/" ++ toString a.id ++ "</link>\n" ++
  "    <trkseg>"

/-- The `gpx_footer` string of `write_to_gpx`. -/
def gpx_footer : String := "    </trkseg>\n  </trk>\n</gpx>"

/-- One `<trkpt>` fragment for sample `i`, as `write_to_gpx` builds it
(`"\n".join(trkpt)`), or `none` when a required key or index is missing
(the `KeyError`/`IndexError` the enclosing handler catches). -/
def buildTrkpt (a : ActivityDetail) (fl : StreamFlags) (s : StreamsResp)
    (i : Nat) : Option String := do
  let tm ← s.time
  let ll ← s.latlng
  let alt ← s.altitude
  let t ← tm.data.get? i
  let p ← ll.data.get? i
  let e ← alt.data.get? i
  let timeStr := add_seconds_to_timestamp a.start_date t
  let base := ["\n   <trkpt lat=\"" ++ fmtFixed p.1 7 ++ "\" lon=\"" ++
                 fmtFixed p.2 7 ++ "\">",
               "    <ele>" ++ fmtFixed e 1 ++ "</ele>",
               "    <time>" ++ timeStr ++ "</time>",
               "    <extensions>",
               "     <gpxtpx:TrackPointExtension>"]
  let base ← if fl.temp then do
      let st ← s.temp
      let v ← st.data.get? i
      pure (base ++ ["      <gpxtpx:atemp>" ++ toString v ++ "</gpxtpx:atemp>"])
    else pure base
  let base ← if fl.watts then do
      let st ← s.watts
      let v ← st.data.get? i
      pure (base ++ ["      <gpxtpx:watts>" ++ toString v ++ "</gpxtpx:watts>"])
    else pure base
  let base ← if fl.heartrate then do
      let st ← s.heartrate
      let v ← st.data.get? i
      pure (base ++ ["      <gpxtpx:hr>" ++ toString v ++ "</gpxtpx:hr>"])
    else pure base
  let base ← if fl.cadence then do
      let st ← s.cadence
      let v ← st.data.get? i
      pure (base ++ ["      <gpxtpx:cad>" ++ toString v ++ "</gpxtpx:cad>"])
    else pure base
  let base := base ++ ["     </gpxtpx:TrackPointExtension>",
                       "    </extensions>", "   </trkpt>"]
  pure (String.intercalate "\n" base)

/-- The content of the file `write_to_gpx` leaves behind.  The source first
writes `gpx_header + gpx_footer` to the file, then — when the stream data
checks out — appends `"".join(trkpts)` followed by `gpx_footer` again; on a
stream-fetch error, a size mismatch between the `latlng` and `time`
streams, or a key/index error while building points, the caught exception
or early return leaves the initial `gpx_header + gpx_footer` document in
place. -/
def write_to_gpx_content (a : ActivityDetail)
    (resp : Except String StreamsResp) : String :=
  match resp with
  | .error _ => gpx_header a ++ gpx_footer
  | .ok s =>
    match s.latlng, s.time with
    | some ll, some tm =>
      if ll.original_size ≠ tm.original_size then gpx_header a ++ gpx_footer
      else
        match (List.range tm.original_size).mapM
            (buildTrkpt a (detect_activity_streams a) s) with
        | none => gpx_header a ++ gpx_footer
        | some pts => gpx_header a ++ gpx_footer ++ String.join pts ++ gpx_footer
    | _, _ => gpx_header a ++ gpx_footer

/-! ## Nextcloud collaborator behaviour and the orchestrator
(`activity_sync/nextcloud_client.py`, `activity_sync/syncer.py`)

`NextcloudClient.upload_gpx`, `save_synced_ids` and `save_backoff_until`
each wrap their WebDAV write in `try/except` and log failures without
re-raising; `load_backoff_until` and `load_synced_ids` degrade to
`None`/empty on any read failure.  The per-call success of these writes,
and the outcome of each Strava HTTP call, are predetermined by an
environment, so the orchestrator run is a pure function. -/

/-- `RATE_LIMIT = 100` (`syncer.py` line 66). -/
def RATE_LIMIT : Nat := 100

/-- `SLEEP_SECONDS = 15 * 60` (`syncer.py` line 67). -/
def SLEEP_SECONDS : Nat := 15 * 60

/-- The exception-message test of the per-activity handler
(`"429" in err_msg or "Rate Limit Exceeded" in err_msg`). -/
def is_rate_limit (msg : String) : Bool :=
  hasSubstr msg "429" || hasSubstr msg "Rate Limit Exceeded"

/-- Python `s.replace(old, new)` for a single-character pattern, the only
form the source uses (spaces to underscores, slashes to dashes). -/
def pyReplaceChar (s : String) (old new : Char) : String :=
  String.mk (s.toList.map (fun c => if c = old then new else c))

/-- The remote filename
`f"{activity_date}_{safe_name}.gpx"` with `activity_date = start_date[:10]`
and `safe_name = name.replace(" ", "_").replace("/", "-")`. -/
def remote_filename (a : ActivitySummary) : String :=
  a.start_date.take 10 ++ "_" ++
    pyReplaceChar (pyReplaceChar a.name ' ' '_') '/' '-' ++ ".gpx"

/-- `(now + timedelta(days=1)).replace(hour=0, minute=0, second=0,
microsecond=0)` in epoch seconds: add one day, floor to the civil day. -/
def nextUtcMidnight (now : Nat) : Nat :=
  (now + 86400) / 86400 * 86400

/-- The predetermined outcome of one iteration of the per-activity
`while True` block.  `detail` is the result of `get_strava_activity` (its
error message is the exception escaping `write_activity_to_gpx`);
`streamsResp` the result of `get_data_stream` (errors are caught inside
`write_to_gpx`); `uploadErr` an exception inside `nc.upload_file` during
`upload_gpx` (caught and logged there, never re-raised); `saveOk` whether
the `save_synced_ids` write reaches the store (its failures are swallowed
too); `removeErr` an exception from `os.remove` (which does escape to the
per-activity handler). -/
structure AttemptSpec where
  detail : Except String ActivityDetail
  streamsResp : Except String StreamsResp
  uploadErr : Option String
  saveOk : Bool
  removeErr : Option String

/-- Observable events of one run, in order. `upload` records the remote
name, the uploaded file content and the error `upload_gpx` swallowed, if
any; `sleep` a time-based suspension in seconds. -/
inductive Event where
  | loadBackoff (found : Option Nat)
  | sleep (seconds : Nat)
  | connect
  | listActivities (n : Nat)
  | attemptStart (id : Int)
  | upload (remoteName content : String) (err : Option String)
  | persistOk
  | persistFailLogged
  | saveBackoff (t : Nat)
  | abandonLogged (id : Int) (msg : String)
  deriving Repr, DecidableEq

/-- How a per-activity block ended: `completed` (the `break` after the
counter increments), `abandoned` (the `break` in the non-rate-limit
`except` branch), or `exhausted` (the environment listed no further
attempt outcomes; the real loop would still be iterating). -/
inductive BlockOutcome where
  | completed
  | abandoned
  | exhausted
  deriving Repr, DecidableEq

/-- Result of the per-activity block: its events, the in-memory synced-id
set, the persisted synced-id document, and how the block ended. -/
structure BlockResult where
  events : List Event
  synced : List String
  remote : List String
  outcome : BlockOutcome
  deriving Repr, DecidableEq

/-- The per-activity `while True` block (`syncer.py` lines 86-114), one
recursion step per iteration, consuming the environment's attempt
outcomes in order.  On a normally-returning GPX write the syncer uploads
the produced file, adds `str(activity_id)` to the set, persists it, and
removes the temp file; an exception whose message carries a rate-limit
marker causes a 15-minute sleep and a retry of the same block, any other
exception abandons the activity. -/
def runAttempts (a : ActivitySummary) :
    List AttemptSpec → List String → List String → BlockResult
  | [], synced, remote =>
      { events := [], synced := synced, remote := remote,
        outcome := .exhausted }
  | spec :: rest, synced, remote =>
    match spec.detail with
    | .error msg =>
        if is_rate_limit msg then
          let r := runAttempts a rest synced remote
          { r with events := Event.attemptStart a.id ::
              Event.sleep SLEEP_SECONDS :: r.events }
        else
          { events := [Event.attemptStart a.id, Event.abandonLogged a.id msg],
            synced := synced, remote := remote, outcome := .abandoned }
    | .ok d =>
        let content := write_to_gpx_content d spec.streamsResp
        let synced2 := insertId synced (toString a.id)
        let remote2 := if spec.saveOk then synced2 else remote
        let evs := [Event.attemptStart a.id,
                    Event.upload (remote_filename a) content spec.uploadErr,
                    if spec.saveOk then Event.persistOk
                    else Event.persistFailLogged]
        match spec.removeErr with
        | none =>
            { events := evs, synced := synced2, remote := remote2,
              outcome := .completed }
        | some msg =>
            if is_rate_limit msg then
              let r := runAttempts a rest synced2 remote2
              { r with events := evs ++ Event.sleep SLEEP_SECONDS :: r.events }
            else
              { events := evs ++ [Event.abandonLogged a.id msg],
                synced := synced2, remote := remote2, outcome := .abandoned }

/-- The environment predetermining every collaborator interaction of one
run: the stored backoff document, the wall clock at the backoff check
(`now`) and at the daily-limit branch (`nowDaily`; that branch runs at
most once per run since it returns), the full activity listing, the
per-activity attempt outcomes keyed by activity id, and whether the
backoff write reaches the store. -/
structure Env where
  backoffStored : Option Nat
  now : Nat
  nowDaily : Nat
  activities : List ActivitySummary
  plans : Int → List AttemptSpec
  backoffSaveOk : Bool

/-- Final state of one `sync_activities` run. -/
structure RunResult where
  configError : Bool
  events : List Event
  synced : List String
  remote : List String
  remoteBackoff : Option Nat
  batch : Nat
  daily : Nat
  earlyReturn : Bool
  diverged : Bool
  deriving Repr, DecidableEq

/-- The `for ... in new_activities` loop (`syncer.py` lines 70-114): burst
check, daily check with persistent backoff and early return, then the
per-activity block. -/
def runLoop (env : Env) :
    List ActivitySummary → Nat → Nat → List String → List String →
      Option Nat → RunResult
  | [], batch, daily, synced, remote, rb =>
      { configError := false, events := [], synced := synced,
        remote := remote, remoteBackoff := rb, batch := batch,
        daily := daily, earlyReturn := false, diverged := false }
  | a :: rest, batch, daily, synced, remote, rb =>
      let ev0 := if batch ≥ RATE_LIMIT then [Event.sleep SLEEP_SECONDS] else []
      let batch1 := if batch ≥ RATE_LIMIT then 0 else batch
      if daily ≥ 1000 then
        let m := nextUtcMidnight env.nowDaily
        { configError := false,
          events := ev0 ++ [Event.saveBackoff m, Event.sleep (m - env.nowDaily)],
          synced := synced, remote := remote,
          remoteBackoff := if env.backoffSaveOk then some m else rb,
          batch := batch1, daily := daily, earlyReturn := true,
          diverged := false }
      else
        let br := runAttempts a (env.plans a.id) synced remote
        match br.outcome with
        | .exhausted =>
            { configError := false, events := ev0 ++ br.events,
              synced := br.synced, remote := br.remote, remoteBackoff := rb,
              batch := batch1, daily := daily, earlyReturn := false,
              diverged := true }
        | .completed =>
            let r := runLoop env rest (batch1 + 1) (daily + 1) br.synced
              br.remote rb
            { r with events := ev0 ++ br.events ++ r.events }
        | .abandoned =>
            let r := runLoop env rest batch1 daily br.synced br.remote rb
            { r with events := ev0 ++ br.events ++ r.events }

/-- `StravaNextcloudSync.sync_activities` (`syncer.py` lines 42-114):
configuration check, persistent-backoff gate, authentication, listing,
delta computation, then the throttled per-activity loop.  `synced0` is
the synced-id set loaded at construction, `remote0` the remote state
document. -/
def sync_activities (cfg : SyncConfig) (env : Env) (synced0 remote0 : List String) :
    RunResult :=
  if !cfg.strava_ready then
    { configError := true, events := [], synced := synced0, remote := remote0,
      remoteBackoff := env.backoffStored, batch := 0, daily := 0,
      earlyReturn := false, diverged := false }
  else
    let gate :=
      match env.backoffStored with
      | some b => if env.now < b then [Event.sleep (b - env.now)] else []
      | none => []
    let delta := new_activities env.activities synced0
    let r := runLoop env delta 0 0 synced0 remote0 env.backoffStored
    { r with events := Event.loadBackoff env.backoffStored :: gate ++
        Event.connect :: Event.listActivities env.activities.length :: r.events }

/-! ## Trace predicates and reference definitions used by the theorems -/

/-- Whether an event is the backoff-marker load. -/
def isLoadBackoff : Event → Bool
  | .loadBackoff _ => true
  | _ => false

/-- Number of backoff-marker loads in a trace. -/
def countLoadBackoff (es : List Event) : Nat := es.countP isLoadBackoff

/-- Whether an event is a time-based suspension. -/
def isSleep : Event → Bool
  | .sleep _ => true
  | _ => false

/-- Number of sleep events in a trace. -/
def countSleep (es : List Event) : Nat := es.countP isSleep

/-- Whether an event logs an abandoned activity. -/
def isAbandonLogged : Event → Bool
  | .abandonLogged _ _ => true
  | _ => false

/-- Number of abandoned-activity log events in a trace. -/
def countAbandoned (es : List Event) : Nat := es.countP isAbandonLogged

/-- Reference outcome of a per-activity block, computed from the attempt
plan alone: rate-limit raises recurse to the next attempt, other raises
abandon, a normally-returning iteration completes. -/
def blockOutcome : List AttemptSpec → BlockOutcome
  | [] => .exhausted
  | spec :: rest =>
    match spec.detail with
    | .error msg => if is_rate_limit msg then blockOutcome rest else .abandoned
    | .ok _ =>
      match spec.removeErr with
      | none => .completed
      | some msg => if is_rate_limit msg then blockOutcome rest else .abandoned

/-- Reference evolution of `(batch_count, daily_count)` over the delta:
reset the burst counter at the cooldown, stop at the daily early return,
and add one to each counter exactly for entries whose block completes. -/
def expectedCounters (env : Env) : List ActivitySummary → Nat → Nat → Nat × Nat
  | [], b, d => (b, d)
  | a :: rest, b, d =>
    let b1 := if b ≥ RATE_LIMIT then 0 else b
    if d ≥ 1000 then (b1, d)
    else
      match blockOutcome (env.plans a.id) with
      | .completed => expectedCounters env rest (b1 + 1) (d + 1)
      | .abandoned => expectedCounters env rest b1 d
      | .exhausted => (b1, d)

/-! ## Concrete fixtures for witnesses and counterexamples -/

/-- A complete Strava configuration. -/
def cfgOk : SyncConfig :=
  { strava_client_id := some "id", strava_refresh_token := some "token",
    strava_client_secret := some "secret" }

/-- A configuration with the refresh token missing. -/
def cfgMissing : SyncConfig :=
  { strava_client_id := some "id", strava_refresh_token := none,
    strava_client_secret := some "secret" }

/-- A concrete UTC start timestamp, 2024-03-01T08:00:00Z. -/
def dtEx : DateTime :=
  { year := 2024, month := 3, day := 1, hour := 8, minute := 0, second := 0,
    aware := true }

/-- A concrete activity detail with no optional streams. -/
def detailEx (i : Int) : ActivityDetail :=
  { name := "Morning Run", id := i, start_date := dtEx, type := "Run",
    sport_type := "Run", device_watts := false, has_heartrate := false,
    has_average_cadence := false, has_average_temp := false }

/-- The matching activity summary as listed. -/
def sumEx (i : Int) : ActivitySummary :=
  { name := "Morning Run", id := i, start_date := "2024-03-01T08:00:00Z",
    type := "Run" }

/-- A well-formed one-sample stream response. -/
def streamsEx : StreamsResp :=
  { time := some ⟨1, [0]⟩, latlng := some ⟨1, [((52 : ℚ), (13 : ℚ))]⟩,
    altitude := some ⟨1, [(100 : ℚ)]⟩, heartrate := none, cadence := none,
    watts := none, temp := none }

/-- A response whose latlng stream has size 10 but time stream size 12. -/
def streamsMismatch : StreamsResp :=
  { time := some ⟨12, List.replicate 12 0⟩,
    latlng := some ⟨10, List.replicate 10 ((52 : ℚ), (13 : ℚ))⟩,
    altitude := some ⟨12, List.replicate 12 (100 : ℚ)⟩, heartrate := none,
    cadence := none, watts := none, temp := none }

/-- An attempt in which every step succeeds. -/
def attemptPlain (i : Int) : AttemptSpec :=
  { detail := .ok (detailEx i), streamsResp := .ok streamsEx,
    uploadErr := none, saveOk := true, removeErr := none }

/-- An attempt whose Nextcloud upload fails (swallowed by the client). -/
def attemptUploadFail : AttemptSpec :=
  { detail := .ok (detailEx 7), streamsResp := .ok streamsEx,
    uploadErr := some "connection refused", saveOk := true, removeErr := none }

/-- An attempt whose Nextcloud upload fails with a rate-limit message. -/
def attemptUpload429 : AttemptSpec :=
  { detail := .ok (detailEx 9), streamsResp := .ok streamsEx,
    uploadErr := some "HTTP 429 Rate Limit Exceeded", saveOk := true,
    removeErr := none }

/-- An attempt serving the mismatched stream response. -/
def attemptMismatch : AttemptSpec :=
  { detail := .ok (detailEx 5), streamsResp := .ok streamsMismatch,
    uploadErr := none, saveOk := true, removeErr := none }

/-- An attempt whose activity fetch raises a rate-limit error. -/
def attemptRaise429 : AttemptSpec :=
  { detail := .error "HTTP 429", streamsResp := .error "unreached",
    uploadErr := none, saveOk := true, removeErr := none }

/-- Environment for the claim C1 counterexample. -/
def envC1 : Env :=
  { backoffStored := none, now := 0, nowDaily := 0, activities := [sumEx 7],
    plans := fun _ => [attemptUploadFail], backoffSaveOk := true }

/-- Environment for the claim C2 counterexample. -/
def envC2 : Env :=
  { backoffStored := none, now := 0, nowDaily := 0,
    activities := [sumEx 5, sumEx 6],
    plans := fun i => if i = 5 then [attemptMismatch] else [attemptPlain 6],
    backoffSaveOk := true }

/-- Environment for the claim C7 counterexample. -/
def envC7 : Env :=
  { backoffStored := none, now := 0, nowDaily := 0,
    activities := [sumEx 9, sumEx 10],
    plans := fun i => if i = 9 then [attemptUpload429] else [attemptPlain 10],
    backoffSaveOk := true }

/-- Environment whose daily-branch clock reads 1000 seconds past epoch. -/
def envC4 : Env :=
  { backoffStored := none, now := 0, nowDaily := 1000,
    activities := [sumEx 1], plans := fun _ => [], backoffSaveOk := true }

/-- Environment with a stored backoff marker 400 seconds in the future. -/
def envW5 : Env :=
  { backoffStored := some 500, now := 100, nowDaily := 0, activities := [],
    plans := fun _ => [], backoffSaveOk := true }

/-- Environment with one pending activity and an all-success plan. -/
def envW6 : Env :=
  { backoffStored := none, now := 0, nowDaily := 0, activities := [sumEx 3],
    plans := fun _ => [attemptPlain 3], backoffSaveOk := true }

/-! ## Helper lemmas -/

@[simp] theorem isLoadBackoff_sleep (n : Nat) : isLoadBackoff (.sleep n) = false := rfl

@[simp] theorem isLoadBackoff_connect : isLoadBackoff .connect = false := rfl

@[simp] theorem isLoadBackoff_listActivities (n : Nat) :
    isLoadBackoff (.listActivities n) = false := rfl

@[simp] theorem isLoadBackoff_attemptStart (i : Int) :
    isLoadBackoff (.attemptStart i) = false := rfl

@[simp] theorem isLoadBackoff_upload (a b : String) (e : Option String) :
    isLoadBackoff (.upload a b e) = false := rfl

@[simp] theorem isLoadBackoff_persistOk : isLoadBackoff .persistOk = false := rfl

@[simp] theorem isLoadBackoff_persistFailLogged :
    isLoadBackoff .persistFailLogged = false := rfl

@[simp] theorem isLoadBackoff_saveBackoff (t : Nat) :
    isLoadBackoff (.saveBackoff t) = false := rfl

@[simp] theorem isLoadBackoff_abandonLogged (i : Int) (m : String) :
    isLoadBackoff (.abandonLogged i m) = false := rfl

@[simp] theorem isLoadBackoff_loadBackoff (b : Option Nat) :
    isLoadBackoff (.loadBackoff b) = true := rfl

/-- The loop never reports a configuration error. -/
theorem runLoop_configError (env : Env) (l : List ActivitySummary) (b d : Nat)
    (s r : List String) (rb : Option Nat) :
    (runLoop env l b d s r rb).configError = false := by
  induction l generalizing b d s r with
  | nil => rfl
  | cons a rest ih =>
      unfold runLoop
      dsimp only
      split
      · rfl
      · cases h : (runAttempts a (env.plans a.id) s r).outcome <;> simp [h, ih]

/-- The per-activity block never emits a backoff-marker load. -/
theorem no_loadBackoff_runAttempts (a : ActivitySummary)
    (plan : List AttemptSpec) (s r : List String) :
    ∀ e ∈ (runAttempts a plan s r).events, isLoadBackoff e = false := by
  induction plan generalizing s r with
  | nil => simp [runAttempts]
  | cons spec rest ih =>
    unfold runAttempts
    cases hd : spec.detail with
    | error msg =>
        by_cases hrl : is_rate_limit msg
        · simp [hrl]
          exact fun e he => ih _ _ e he
        · simp [hrl]
    | ok d =>
        cases hr : spec.removeErr with
        | none =>
            by_cases hs : spec.saveOk <;> simp [hr, hs]
        | some msg =>
            by_cases hrl : is_rate_limit msg <;> by_cases hs : spec.saveOk <;>
              simp [hr, hrl, hs] <;>
              exact fun e he => ih _ _ e he

/-- The delta loop never emits a backoff-marker load. -/
theorem no_loadBackoff_runLoop (env : Env) (l : List ActivitySummary)
    (b d : Nat) (s r : List String) (rb : Option Nat) :
    ∀ e ∈ (runLoop env l b d s r rb).events, isLoadBackoff e = false := by
  induction l generalizing b d s r with
  | nil => simp [runLoop]
  | cons a rest ih =>
      unfold runLoop
      dsimp only
      split
      · by_cases hb : b ≥ RATE_LIMIT <;> simp [hb]
      · have hA := no_loadBackoff_runAttempts a (env.plans a.id) s r
        cases h : (runAttempts a (env.plans a.id) s r).outcome <;>
          by_cases hb : b ≥ RATE_LIMIT <;> simp [h, hb] <;>
          first
          | exact hA
          | exact fun e he => he.elim (fun h2 => hA e h2)
              (fun h2 => ih _ _ _ _ e h2)

/-- The loop either leaves the stored backoff marker alone or stores a new value; it never deletes it. -/
theorem runLoop_remoteBackoff (env : Env) (l : List ActivitySummary)
    (b d : Nat) (s r : List String) (rb : Option Nat) :
    (runLoop env l b d s r rb).remoteBackoff = rb ∨
      ∃ m, (runLoop env l b d s r rb).remoteBackoff = some m := by
  induction l generalizing b d s r with
  | nil => exact .inl rfl
  | cons a rest ih =>
      unfold runLoop
      dsimp only
      split
      · by_cases hs : env.backoffSaveOk <;> simp [hs]
      · cases h : (runAttempts a (env.plans a.id) s r).outcome <;> simp [h, ih]

/-- Every iteration of the per-activity block begins by logging the attempt. -/
theorem runAttempts_events_head (a : ActivitySummary) (spec : AttemptSpec)
    (rest : List AttemptSpec) (s r : List String) :
    ∃ tail, (runAttempts a (spec :: rest) s r).events =
      Event.attemptStart a.id :: tail := by
  unfold runAttempts
  cases hd : spec.detail with
  | error msg => by_cases hrl : is_rate_limit msg <;> simp [hrl]
  | ok d =>
      cases hr : spec.removeErr with
      | none => simp [hr]
      | some msg => by_cases hrl : is_rate_limit msg <;> simp [hr, hrl]

/-- The block outcome depends only on the attempt plan. -/
theorem runAttempts_outcome (a : ActivitySummary) (plan : List AttemptSpec)
    (s r : List String) :
    (runAttempts a plan s r).outcome = blockOutcome plan := by
  induction plan generalizing s r with
  | nil => rfl
  | cons spec rest ih =>
    unfold runAttempts blockOutcome
    cases hd : spec.detail with
    | error msg => by_cases hrl : is_rate_limit msg <;> simp [hrl, ih]
    | ok d =>
      cases hr : spec.removeErr with
      | none => simp [hr]
      | some msg => by_cases hrl : is_rate_limit msg <;> simp [hr, hrl, ih]

/-! ## Claim theorems -/

/-- Claim C3 (confirmed): for every activity list `A` (in listing order) and
synced set `S`, the computed delta is exactly the subsequence of `A` of
activities whose stringified id is not in `S`: it is a sublist of `A`
(order preserved, no re-sorting), membership is as claimed, and each
activity keeps its multiplicity from `A` (zero when filtered out). -/
theorem C3_delta_order_preserving (A : List ActivitySummary) (S : List String) :
    List.Sublist (new_activities A S) A ∧
    (∀ a, a ∈ new_activities A S ↔ a ∈ A ∧ toString a.id ∉ S) ∧
    (∀ a, List.count a (new_activities A S) =
      if toString a.id ∈ S then 0 else List.count a A) := by
  refine ⟨List.filter_sublist _, fun a => ?_, fun a => ?_⟩
  · simp [new_activities, List.mem_filter, List.elem_iff]
  · by_cases h : toString a.id ∈ S
    · simp only [if_pos h]
      rw [List.count_eq_zero]
      simp [new_activities, List.mem_filter, List.elem_iff, h]
    · simp only [if_neg h]
      apply List.count_filter
      simp [List.elem_iff, h]

/-- Claim C8 (confirmed): the run reports a configuration error exactly when
the three Strava credentials are not all present (set and non-empty), and in
that case it stops before any collaborator call: no events are emitted and
the state documents are untouched; with complete credentials no
configuration error is raised. -/
theorem C8_config_guard (cfg : SyncConfig) (env : Env)
    (synced0 remote0 : List String) :
    ((sync_activities cfg env synced0 remote0).configError = true ↔
      cfg.strava_ready = false) ∧
    (cfg.strava_ready = false →
      (sync_activities cfg env synced0 remote0).events = [] ∧
      (sync_activities cfg env synced0 remote0).synced = synced0 ∧
      (sync_activities cfg env synced0 remote0).remote = remote0 ∧
      (sync_activities cfg env synced0 remote0).remoteBackoff = env.backoffStored) := by
  unfold sync_activities
  by_cases h : cfg.strava_ready
  · simp [h, runLoop_configError]
  · simp [h]

/-- Witness for claim C8: the theorem instantiated at a configuration with
a missing refresh token and at a complete one. -/
theorem C8_config_guard_witness :
    (sync_activities cfgMissing envW5 [] []).configError = true ∧
    (sync_activities cfgMissing envW5 [] []).events = [] ∧
    (sync_activities cfgOk envW5 [] []).configError = false := by
  have h1 := C8_config_guard cfgMissing envW5 [] []
  have h2 := C8_config_guard cfgOk envW5 [] []
  refine ⟨h1.1.mpr (by decide), (h1.2 (by decide)).1, ?_⟩
  by_contra hc
  have := h2.1.mp (by simpa using hc)
  simp [cfgOk, SyncConfig.strava_ready, pyTruthy] at this

/-- Claim C5 (confirmed): with valid configuration every run starts by
loading the backoff marker; when the marker is present and strictly in the
future the run sleeps for the remaining seconds before connecting and
listing, when absent or expired it connects immediately; the marker is
loaded exactly once per run; and a stored marker is never deleted — after
the run some marker is still stored. -/
theorem C5_backoff_gate (cfg : SyncConfig) (env : Env)
    (synced0 remote0 : List String) (hready : cfg.strava_ready = true) :
    (∀ b, env.backoffStored = some b → env.now < b →
      ∃ tail, (sync_activities cfg env synced0 remote0).events =
        Event.loadBackoff (some b) :: Event.sleep (b - env.now) ::
          Event.connect :: Event.listActivities env.activities.length :: tail) ∧
    (∀ b, env.backoffStored = some b → ¬ env.now < b →
      ∃ tail, (sync_activities cfg env synced0 remote0).events =
        Event.loadBackoff (some b) ::
          Event.connect :: Event.listActivities env.activities.length :: tail) ∧
    (env.backoffStored = none →
      ∃ tail, (sync_activities cfg env synced0 remote0).events =
        Event.loadBackoff none ::
          Event.connect :: Event.listActivities env.activities.length :: tail) ∧
    countLoadBackoff (sync_activities cfg env synced0 remote0).events = 1 ∧
    (∀ b, env.backoffStored = some b →
      ∃ b2, (sync_activities cfg env synced0 remote0).remoteBackoff = some b2) := by
  have h0 : ∀ (l : List ActivitySummary) (b d : Nat) (s r : List String)
      (rb : Option Nat), (runLoop env l b d s r rb).events.countP isLoadBackoff = 0 := by
    intro l b d s r rb
    refine List.countP_eq_zero.mpr ?_
    intro e he
    simp [no_loadBackoff_runLoop env l b d s r rb e he]
  refine ⟨?_, ?_, ?_, ?_, ?_⟩
  · intro b hb hn
    refine ⟨(runLoop env (new_activities env.activities synced0) 0 0 synced0
      remote0 env.backoffStored).events, ?_⟩
    simp [sync_activities, hready, hb, hn]
  · intro b hb hn
    refine ⟨(runLoop env (new_activities env.activities synced0) 0 0 synced0
      remote0 env.backoffStored).events, ?_⟩
    simp [sync_activities, hready, hb, hn]
  · intro hb
    refine ⟨(runLoop env (new_activities env.activities synced0) 0 0 synced0
      remote0 env.backoffStored).events, ?_⟩
    simp [sync_activities, hready, hb]
  · cases hb : env.backoffStored with
    | none =>
        simp [sync_activities, hready, hb, countLoadBackoff, List.countP_cons,
          List.countP_append, h0]
    | some b =>
        by_cases hn : env.now < b <;>
          simp [sync_activities, hready, hb, hn, countLoadBackoff,
            List.countP_cons, List.countP_append, h0]
  · intro b hb
    have := runLoop_remoteBackoff env (new_activities env.activities synced0)
      0 0 synced0 remote0 env.backoffStored
    have heq : (sync_activities cfg env synced0 remote0).remoteBackoff =
        (runLoop env (new_activities env.activities synced0) 0 0 synced0
          remote0 env.backoffStored).remoteBackoff := by
      simp [sync_activities, hready]
    rcases this with h1 | ⟨m, h1⟩
    · exact ⟨b, by rw [heq, h1, hb]⟩
    · exact ⟨m, by rw [heq, h1]⟩

/-- Witness for claim C5: the theorem instantiated with a marker 400
seconds in the future. -/
theorem C5_backoff_gate_witness :
    ∃ tail, (sync_activities cfgOk envW5 [] []).events =
      Event.loadBackoff (some 500) :: Event.sleep 400 ::
        Event.connect :: Event.listActivities 0 :: tail := by
  have h := (C5_backoff_gate cfgOk envW5 [] [] (by decide)).1 500 rfl (by decide)
  simpa using h

/-- Claim C4 (confirmed): when the daily counter has reached 1000 at a
delta entry, the run saves a backoff marker equal to the next UTC midnight,
sleeps until that instant, and returns early without attempting that entry
or any later one and without touching the synced state; the marker is
the least multiple of 86400 seconds strictly greater than the current
instant, that is, the next UTC midnight. -/
theorem C4_daily_limit (env : Env) (a : ActivitySummary)
    (rest : List ActivitySummary) (batch daily : Nat)
    (synced remote : List String) (rb : Option Nat) (hd : 1000 ≤ daily) :
    (runLoop env (a :: rest) batch daily synced remote rb).events =
      (if RATE_LIMIT ≤ batch then [Event.sleep SLEEP_SECONDS] else []) ++
        [Event.saveBackoff (nextUtcMidnight env.nowDaily),
         Event.sleep (nextUtcMidnight env.nowDaily - env.nowDaily)] ∧
    (runLoop env (a :: rest) batch daily synced remote rb).remoteBackoff =
      (if env.backoffSaveOk then some (nextUtcMidnight env.nowDaily) else rb) ∧
    (runLoop env (a :: rest) batch daily synced remote rb).earlyReturn = true ∧
    (runLoop env (a :: rest) batch daily synced remote rb).synced = synced ∧
    (runLoop env (a :: rest) batch daily synced remote rb).remote = remote ∧
    (∀ i, Event.attemptStart i ∉
      (runLoop env (a :: rest) batch daily synced remote rb).events) ∧
    env.nowDaily < nextUtcMidnight env.nowDaily ∧
    nextUtcMidnight env.nowDaily % 86400 = 0 ∧
    (∀ t, env.nowDaily < t → t % 86400 = 0 →
      nextUtcMidnight env.nowDaily ≤ t) := by
  have hdiv : (env.nowDaily + 86400) / 86400 = env.nowDaily / 86400 + 1 :=
    Nat.add_div_right _ (by norm_num)
  have hmod := Nat.div_add_mod env.nowDaily 86400
  have hlt : env.nowDaily % 86400 < 86400 := Nat.mod_lt _ (by norm_num)
  refine ⟨?_, ?_, ?_, ?_, ?_, ?_, ?_, ?_, ?_⟩
  · unfold runLoop
    by_cases hb : batch ≥ RATE_LIMIT <;> simp [hb, hd]
  · unfold runLoop
    by_cases hb : batch ≥ RATE_LIMIT <;> simp [hb, hd]
  · unfold runLoop
    by_cases hb : batch ≥ RATE_LIMIT <;> simp [hb, hd]
  · unfold runLoop
    by_cases hb : batch ≥ RATE_LIMIT <;> simp [hb, hd]
  · unfold runLoop
    by_cases hb : batch ≥ RATE_LIMIT <;> simp [hb, hd]
  · intro i
    unfold runLoop
    by_cases hb : batch ≥ RATE_LIMIT <;> simp [hb, hd]
  · unfold nextUtcMidnight
    rw [hdiv]
    omega
  · unfold nextUtcMidnight
    rw [hdiv]
    omega
  · intro t hlt2 hmod2
    have hmt := Nat.div_add_mod t 86400
    unfold nextUtcMidnight
    rw [hdiv]
    omega

/-- Witness for claim C4: the theorem instantiated with the daily counter
at 1000 and the clock at 1000 seconds past epoch; the saved marker is the
next UTC midnight, 86400. -/
theorem C4_daily_limit_witness :
    (runLoop envC4 [sumEx 1] 0 1000 [] [] none).earlyReturn = true ∧
    (runLoop envC4 [sumEx 1] 0 1000 [] [] none).remoteBackoff = some 86400 ∧
    (runLoop envC4 [sumEx 1] 0 1000 [] [] none).events =
      [Event.saveBackoff 86400, Event.sleep 85400] := by
  have h := C4_daily_limit envC4 (sumEx 1) [] 0 1000 [] [] none (by decide)
  refine ⟨h.2.2.1, ?_, ?_⟩
  · rw [h.2.1]
    decide
  · rw [h.1]
    decide

/-- Claim C6 (confirmed): when the burst counter has reached the limit of
100 at the top of a delta iteration (and the daily limit has not tripped),
the run equals the same run restarted with the counter reset to 0, with one
15-minute sleep event prepended; in particular the attempt of that entry is
immediately preceded by the cooldown sleep. -/
theorem C6_burst_cooldown (env : Env) (a : ActivitySummary)
    (rest : List ActivitySummary) (batch daily : Nat)
    (synced remote : List String) (rb : Option Nat)
    (hb : RATE_LIMIT ≤ batch) (hd : daily < 1000)
    (hp : env.plans a.id ≠ []) :
    runLoop env (a :: rest) batch daily synced remote rb =
      { runLoop env (a :: rest) 0 daily synced remote rb with
        events := Event.sleep SLEEP_SECONDS ::
          (runLoop env (a :: rest) 0 daily synced remote rb).events } ∧
    ∃ tail, (runLoop env (a :: rest) batch daily synced remote rb).events =
      Event.sleep SLEEP_SECONDS :: Event.attemptStart a.id :: tail := by
  have hd2 : ¬ (1000 ≤ daily) := Nat.not_le.mpr hd
  have h100 : ¬ (RATE_LIMIT ≤ (0 : Nat)) := by norm_num [RATE_LIMIT]
  constructor
  · unfold runLoop
    cases h : (runAttempts a (env.plans a.id) synced remote).outcome <;>
      simp [hb, hd2, h, h100]
  · obtain ⟨spec, plan2, hplan⟩ :
        ∃ spec plan2, env.plans a.id = spec :: plan2 := by
      cases hpl : env.plans a.id with
      | nil => exact absurd hpl hp
      | cons x xs => exact ⟨x, xs, rfl⟩
    obtain ⟨tail2, htail⟩ := runAttempts_events_head a spec plan2 synced remote
    unfold runLoop
    rw [hplan]
    cases h : (runAttempts a (spec :: plan2) synced remote).outcome <;>
      simp [hb, hd2, h, htail]

/-- Witness for claim C6: the theorem instantiated with the burst counter
at 100 and one pending activity. -/
theorem C6_burst_cooldown_witness :
    ∃ tail, (runLoop envW6 [sumEx 3] 100 0 [] [] none).events =
      Event.sleep SLEEP_SECONDS :: Event.attemptStart 3 :: tail := by
  have h := (C6_burst_cooldown envW6 (sumEx 3) [] 100 0 [] [] none
    (by decide) (by decide) (List.cons_ne_nil _ _)).2
  simpa using h

/-- Claim C10 (confirmed): the burst and daily counters evolve exactly as
`expectedCounters` prescribes: each delta entry whose per-activity block
completes contributes one increment to each counter, and nothing else
changes them — abandoned entries and rate-limit retry iterations leave both
unchanged, the burst counter resets at the cooldown, and the loop stops at
the daily early return. The checks therefore bound completed
upload-and-persist blocks, not issued API requests. -/
theorem C10_counters (env : Env) (l : List ActivitySummary) (b d : Nat)
    (s r : List String) (rb : Option Nat) :
    ((runLoop env l b d s r rb).batch, (runLoop env l b d s r rb).daily) =
      expectedCounters env l b d := by
  induction l generalizing b d s r with
  | nil => rfl
  | cons a rest ih =>
    unfold runLoop expectedCounters
    dsimp only
    split
    · rfl
    · rw [← runAttempts_outcome a (env.plans a.id) s r]
      cases h : (runAttempts a (env.plans a.id) s r).outcome <;> simp [h, ih]

/-- Claim C1 (corrected, amended): after any per-activity attempt whose GPX
write returned normally and whose temp-file removal does not raise, the
identifier is added to the in-memory synced set and persisted immediately
after the upload call returns, whatever `uploadErr` is —
`NextcloudClient.upload_gpx` catches and logs upload failures instead of
raising, so the identifier is present even when the upload failed. Only a
failure raised before the upload call keeps it absent. -/
theorem C1_amended_marked_after_upload_call (a : ActivitySummary)
    (spec : AttemptSpec) (rest : List AttemptSpec)
    (synced remote : List String) (d : ActivityDetail)
    (hdet : spec.detail = .ok d) (hrem : spec.removeErr = none) :
    runAttempts a (spec :: rest) synced remote =
      { events := [Event.attemptStart a.id,
                   Event.upload (remote_filename a)
                     (write_to_gpx_content d spec.streamsResp) spec.uploadErr,
                   if spec.saveOk then Event.persistOk
                   else Event.persistFailLogged],
        synced := insertId synced (toString a.id),
        remote := if spec.saveOk then insertId synced (toString a.id)
                  else remote,
        outcome := .completed } := by
  unfold runAttempts
  rw [hdet]
  simp only [hrem]

/-- Claim C1 counterexample: a run whose single activity has a failing
Nextcloud upload (the upload event records the swallowed error message)
still ends with the identifier in both the in-memory and the persisted
synced state, contradicting the claim that an activity whose upload fails
is absent from SyncedState after the run. -/
theorem C1_counterexample :
    Event.upload (remote_filename (sumEx 7))
        (write_to_gpx_content (detailEx 7) (.ok streamsEx))
        (some "connection refused")
      ∈ (sync_activities cfgOk envC1 [] []).events ∧
    "7" ∈ (sync_activities cfgOk envC1 [] []).synced ∧
    "7" ∈ (sync_activities cfgOk envC1 [] []).remote := by
  decide

/-- Witness for claim C1: the amended theorem instantiated at the failing
upload attempt, evaluated on concrete state. -/
theorem C1_amended_witness :
    (runAttempts (sumEx 7) [attemptUploadFail] [] []).outcome =
      BlockOutcome.completed ∧
    (runAttempts (sumEx 7) [attemptUploadFail] [] []).synced = ["7"] := by
  have h := C1_amended_marked_after_upload_call (sumEx 7) attemptUploadFail []
    [] [] (detailEx 7) rfl rfl
  rw [h]
  decide

/-- Claim C2 (corrected, amended): an activity whose latlng and time
streams disagree in length does not crash the run, and processing continues
with the next entry — but the activity is not aborted unmarked:
`write_to_gpx` returns normally after printing the error, leaving the
header-plus-footer document, which the syncer uploads before adding the
identifier to the synced state and persisting it. -/
theorem C2_amended_mismatch_not_aborted (a : ActivitySummary)
    (spec : AttemptSpec) (rest : List AttemptSpec)
    (synced remote : List String) (d : ActivityDetail) (sr : StreamsResp)
    (ll : StreamData (ℚ × ℚ)) (tm : StreamData Int)
    (hdet : spec.detail = .ok d) (hsr : spec.streamsResp = .ok sr)
    (hll : sr.latlng = some ll) (htm : sr.time = some tm)
    (hmm : ll.original_size ≠ tm.original_size)
    (hrem : spec.removeErr = none) :
    runAttempts a (spec :: rest) synced remote =
      { events := [Event.attemptStart a.id,
                   Event.upload (remote_filename a)
                     (gpx_header d ++ gpx_footer) spec.uploadErr,
                   if spec.saveOk then Event.persistOk
                   else Event.persistFailLogged],
        synced := insertId synced (toString a.id),
        remote := if spec.saveOk then insertId synced (toString a.id)
                  else remote,
        outcome := .completed } := by
  have hcontent : write_to_gpx_content d spec.streamsResp =
      gpx_header d ++ gpx_footer := by
    unfold write_to_gpx_content
    rw [hsr]
    simp only [hll, htm]
    simp [hmm]
  unfold runAttempts
  rw [hdet]
  simp only [hrem, hcontent]

/-- Claim C2 counterexample: with a latlng stream of size 10 and a time
stream of size 12 (the claim exact sizes), the run marks the mismatched
activity as synced and persists it — contradicting the claim — while indeed
not raising (no abandon event) and continuing to the next delta entry. -/
theorem C2_counterexample :
    (sync_activities cfgOk envC2 [] []).synced = ["5", "6"] ∧
    (sync_activities cfgOk envC2 [] []).remote = ["5", "6"] ∧
    (sync_activities cfgOk envC2 [] []).configError = false ∧
    (sync_activities cfgOk envC2 [] []).diverged = false ∧
    countAbandoned (sync_activities cfgOk envC2 [] []).events = 0 ∧
    Event.attemptStart 6 ∈ (sync_activities cfgOk envC2 [] []).events := by
  decide

/-- Witness for claim C2: the amended theorem instantiated at the
mismatched attempt, evaluated on concrete state. -/
theorem C2_amended_witness :
    (runAttempts (sumEx 5) [attemptMismatch] [] []).outcome =
      BlockOutcome.completed ∧
    (runAttempts (sumEx 5) [attemptMismatch] [] []).synced = ["5"] := by
  have h := C2_amended_mismatch_not_aborted (sumEx 5) attemptMismatch [] [] []
    (detailEx 5) streamsMismatch ⟨10, List.replicate 10 ((52 : ℚ), (13 : ℚ))⟩
    ⟨12, List.replicate 12 0⟩ rfl rfl rfl rfl (by decide) rfl
  rw [h]
  decide

/-- Claim C7 (corrected, amended): for an exception raised inside the
per-activity block the handler behaves as claimed — a message carrying a
rate-limit marker causes one 15-minute sleep followed by a retry of the
same activity from the top of the block, with nothing between the sleep and
the next attempt (no counter re-check) and no error surfaced, while any
other message abandons the activity unmarked and the run moves on. Failures
of the upload step, however, never raise (`upload_gpx` swallows them), so a
rate-limited upload is not retried. -/
theorem C7_amended_raised_errors (a : ActivitySummary) (spec : AttemptSpec)
    (rest : List AttemptSpec) (synced remote : List String) (msg : String)
    (hdet : spec.detail = .error msg) :
    (is_rate_limit msg = true →
      runAttempts a (spec :: rest) synced remote =
        { runAttempts a rest synced remote with
          events := Event.attemptStart a.id :: Event.sleep SLEEP_SECONDS ::
            (runAttempts a rest synced remote).events }) ∧
    (is_rate_limit msg = false →
      runAttempts a (spec :: rest) synced remote =
        { events := [Event.attemptStart a.id, Event.abandonLogged a.id msg],
          synced := synced, remote := remote,
          outcome := .abandoned }) := by
  constructor <;> intro h <;>
    (conv_lhs => rw [runAttempts.eq_def]) <;> dsimp only <;> rw [hdet] <;>
      simp [h]

/-- Claim C7 counterexample: an upload failing with a rate-limit message
produces no sleep and no retry — the activity is marked synced and the run
advances to the next entry — contradicting the claim that a rate-limit
failure of any step, upload included, causes a 15-minute sleep and a retry
of the same activity. -/
theorem C7_counterexample :
    (attemptUpload429.uploadErr = some "HTTP 429 Rate Limit Exceeded" ∧
      is_rate_limit "HTTP 429 Rate Limit Exceeded" = true) ∧
    countSleep (sync_activities cfgOk envC7 [] []).events = 0 ∧
    "9" ∈ (sync_activities cfgOk envC7 [] []).synced ∧
    Event.attemptStart 10 ∈ (sync_activities cfgOk envC7 [] []).events := by
  decide

/-- Witness for claim C7: the amended theorem instantiated at a
rate-limit-raising fetch attempt. -/
theorem C7_amended_witness :
    (runAttempts (sumEx 9) [attemptRaise429, attemptPlain 9] [] []).events =
      Event.attemptStart 9 :: Event.sleep SLEEP_SECONDS ::
        (runAttempts (sumEx 9) [attemptPlain 9] [] []).events := by
  have h := (C7_amended_raised_errors (sumEx 9) attemptRaise429
    [attemptPlain 9] [] [] "HTTP 429" rfl).1 (by decide)
  rw [h]
  rfl

/-- Claim C9 (code bug): for an activity with one sample and matching
streams the produced file is not a single GPX document whose track segment
holds the point: `write_to_gpx` first writes header plus footer and then
appends the points followed by a second footer, so the content closes the
document twice and the first `</gpx>` comes before the first `<trkpt`. -/
theorem C9_trkpt_outside_document :
    countSubstr (write_to_gpx_content (detailEx 7) (.ok streamsEx))
      "</gpx>" = 2 ∧
    countSubstr (write_to_gpx_content (detailEx 7) (.ok streamsEx))
      "<trkpt" = 1 ∧
    firstSubstrPos (write_to_gpx_content (detailEx 7) (.ok streamsEx))
        "</gpx>" <
      firstSubstrPos (write_to_gpx_content (detailEx 7) (.ok streamsEx))
        "<trkpt" := by
  decide
